import Mathlib

/-!
Verification of the unit-propagation layer in src/unyt/_array_functions.py.

The handlers below are translated one-for-one from src/unyt/_array_functions.py.
The collaborators that the handlers import from the rest of the repository
(the Unit algebra of unyt.unit_object, the tagged-array wrapper unyt.array,
and the exception types of unyt.exceptions) are not part of src/, so they are
modelled from the specification (spec sections 3 and 6).  The numeric kernels
(np.*._implementation) are external to the repository; following spec section 6
they are raw-array-in / raw-array-out functions, bundled in a `Numpy` record
that each handler receives, mirroring the source's references to the global
numpy module.
-/

namespace UnytSpec

/-- Modelled from the spec: the dimension descriptor of a unit (spec section 3,
"a physical dimension and scale"), as integer exponents over three base
dimensions. -/
structure Dims where
  dimLength : Int
  dimTime : Int
  dimMass : Int
deriving DecidableEq, Repr

/-- Modelled from the spec: the Unit collaborator type (spec section 3), an
immutable value holding a dimension and a scale factor, supporting
multiplication, division, exponentiation, equality, a dimensionless test and
conversion-factor lookup (spec section 6). -/
structure Unyt where
  dims : Dims
  scale : ℚ
deriving DecidableEq, Repr

/-- Modelled from the spec: unit multiplication (dimensions add, scales multiply). -/
def Unyt.mul (u v : Unyt) : Unyt :=
  ⟨⟨u.dims.dimLength + v.dims.dimLength, u.dims.dimTime + v.dims.dimTime,
    u.dims.dimMass + v.dims.dimMass⟩, u.scale * v.scale⟩

/-- Modelled from the spec: unit reciprocal. -/
def Unyt.inv (u : Unyt) : Unyt :=
  ⟨⟨-u.dims.dimLength, -u.dims.dimTime, -u.dims.dimMass⟩, u.scale⁻¹⟩

/-- Modelled from the spec: unit division. -/
def Unyt.div (u v : Unyt) : Unyt := u.mul v.inv

/-- Modelled from the spec: integer power of a unit. -/
def Unyt.pow (u : Unyt) (n : ℕ) : Unyt :=
  ⟨⟨u.dims.dimLength * n, u.dims.dimTime * n, u.dims.dimMass * n⟩, u.scale ^ n⟩

/-- Modelled from the spec: the dimensionless test of the Unit collaborator. -/
def Unyt.isDimensionless (u : Unyt) : Bool :=
  u.dims == ⟨0, 0, 0⟩

/-- Modelled from the spec: the identity Unit NULL_UNIT (spec glossary,
"the identity Unit, representing no physical dimension"). -/
def NULL_UNIT : Unyt := ⟨⟨0, 0, 0⟩, 1⟩

/-- Modelled from the spec: the scalar conversion factor between two compatible
units (spec section 6), i.e. the value of the quantity 1*u expressed in v. -/
def Unyt.toFactor (u v : Unyt) : ℚ := u.scale / v.scale

/-- A sample length unit for concrete instances. -/
def meter : Unyt := ⟨⟨1, 0, 0⟩, 1⟩

/-- A sample length unit, 1000 meters. -/
def kilometer : Unyt := ⟨⟨1, 0, 0⟩, 1000⟩

/-- A sample time unit for concrete instances. -/
def second : Unyt := ⟨⟨0, 1, 0⟩, 1⟩

/-- Modelled from the spec: raw numeric array data (spec section 3, "a raw
numeric array ... opaque to this core"), restricted to one- and
two-dimensional rational arrays, enough to exercise every handler. -/
inductive RawData where
  | one (xs : List ℚ)
  | two (xss : List (List ℚ))
deriving DecidableEq, Repr

/-- Modelled from the spec: elementwise scalar multiplication of raw data (used
when an operand is rescaled by a conversion factor). -/
def scaleData (f : ℚ) : RawData → RawData
  | .one xs => .one (xs.map fun x => x * f)
  | .two xss => .two (xss.map fun row => row.map fun x => x * f)

/-- Modelled from the spec: an array operand as the handlers see it.  `units =
some u` is a Tagged Array carrying the unit u; `units = none` is a bare ndarray
with no units attribute (spec section 3). -/
structure UArr where
  data : RawData
  units : Option Unyt
deriving DecidableEq, Repr

/-- Modelled from the spec: multiplying raw kernel output by a unit
(`res * units` in the source) yields a Tagged Array carrying that unit. -/
def tag (d : RawData) (u : Unyt) : UArr := ⟨d, some u⟩

/-- Modelled from the spec: dividing raw kernel output by a unit
(`res / a.units` in the source) yields a Tagged Array carrying the reciprocal
unit. -/
def tagdiv (d : RawData) (u : Unyt) : UArr := ⟨d, some (NULL_UNIT.div u)⟩

/-- Translation of `getattr(a, "units", NULL_UNIT)`: a bare operand contributes
NULL_UNIT. -/
def getattrUnits (a : UArr) : Unyt := a.units.getD NULL_UNIT

/-- Modelled from the spec: the errors of the unit layer (spec section 7) plus
the Python-level failures of a mandatory `.units` attribute access and of
unpacking a too-short range. -/
inductive UnytError where
  | unitInconsistency (units : List Unyt)
  | unitConversion (u1 : Unyt) (d1 : Dims) (u2 : Unyt) (d2 : Dims)
  | typeError
  | valueError
  | attributeError
deriving DecidableEq, Repr

/-- Decidable equality of fallible results, for evaluating handlers on
concrete inputs. -/
instance {ε α : Type} [DecidableEq ε] [DecidableEq α] : DecidableEq (Except ε α)
  | .ok a, .ok b =>
      if h : a = b then .isTrue (by rw [h])
      else .isFalse (by intro hc; cases hc; exact h rfl)
  | .error a, .error b =>
      if h : a = b then .isTrue (by rw [h])
      else .isFalse (by intro hc; cases hc; exact h rfl)
  | .ok _, .error _ => .isFalse (by intro hc; cases hc)
  | .error _, .ok _ => .isFalse (by intro hc; cases hc)

/-- Translation of a mandatory `a.units` attribute access, which raises
AttributeError on a bare ndarray. -/
def unitsAttr (a : UArr) : Except UnytError Unyt :=
  match a.units with
  | some u => .ok u
  | none => .error .attributeError

/-- Modelled from the spec: a scalar quantity used as a histogram range bound;
its unit is optional because the source probes `hasattr(x, "units")`. -/
structure Quant where
  val : ℚ
  units : Option Unyt
deriving DecidableEq, Repr

/-- Modelled from the spec: `q.to(target).value`, the value of the quantity
expressed in the target unit (defined via the conversion factor of compatible
units, spec section 6). -/
def Quant.to_value (q : Quant) (target : Unyt) : ℚ :=
  q.val * Unyt.toFactor (q.units.getD NULL_UNIT) target

mutual
/-- A possibly nested operand: either an array or a sequence of further
operands, as walked by `get_units` in the source. -/
inductive ArrsTree where
  | leaf (a : UArr)
  | node (children : ArrsList)
/-- A sequence of possibly nested operands. -/
inductive ArrsList where
  | nil
  | cons (head : ArrsTree) (tail : ArrsList)
end

/-- View of a flat Python sequence of arrays as an operand sequence. -/
def toArrsList : List UArr → ArrsList
  | [] => .nil
  | a :: rest => .cons (.leaf a) (toArrsList rest)

mutual
/-- Translation of the recursive body of `get_units` for a single element: an
ndarray contributes `getattr(sub, "units", NULL_UNIT)`, anything else is
recursed into. -/
def get_units_tree : ArrsTree → List Unyt
  | .leaf a => [getattrUnits a]
  | .node children => get_units_list children
/-- Translation of `get_units` (src/unyt/_array_functions.py lines 138-145). -/
def get_units_list : ArrsList → List Unyt
  | .nil => []
  | .cons head tail => get_units_tree head ++ get_units_list tail
end

/-- Translation of `_validate_units_consistency` (src lines 148-161): return
the single unique unit, or raise UnitInconsistencyError carrying every unit
found. -/
def _validate_units_consistency (arrays : ArrsList) : Except UnytError Unyt :=
  match get_units_list arrays with
  | [] => .error (.unitInconsistency [])
  | u :: rest =>
      if rest.all fun v => v == u then .ok u
      else .error (.unitInconsistency (u :: rest))

/-- Translation of the loop body of `_sanitize_range` (src lines 93-100): per
dimension take the next two bounds, require both to have a units attribute
(TypeError otherwise), and convert each into that dimension's unit; a
too-short range fails unpacking (ValueError). -/
def sanitizeLoop : List Unyt → List Quant → Except UnytError (List ℚ)
  | [], _ => .ok []
  | u :: us, imin :: imax :: rest =>
      if imin.units.isSome && imax.units.isSome then
        match sanitizeLoop us rest with
        | .error e => .error e
        | .ok tl => .ok (imin.to_value u :: imax.to_value u :: tl)
      else .error .typeError
  | _ :: _, _ => .error .valueError

/-- Translation of `_sanitize_range` (src lines 87-101): None passes through,
otherwise the bounds are converted into raw numbers per dimension. -/
def _sanitize_range (r : Option (List Quant)) (units : List Unyt) :
    Except UnytError (Option (List ℚ)) :=
  match r with
  | none => .ok none
  | some rng =>
      match sanitizeLoop units rng with
      | .error e => .error e
      | .ok l => .ok (some l)

/-- Modelled from the spec: the happy-path conversion of range bounds, each
bound expressed in the unit of its dimension (spec section 4.2 family (c)),
used to characterize `sanitizeLoop` when no error occurs. -/
def convert_bounds : List Unyt → List Quant → List ℚ
  | [], _ => []
  | u :: us, imin :: imax :: rest =>
      imin.to_value u :: imax.to_value u :: convert_bounds us rest
  | _ :: _, _ => []

/-- Well-formedness of an explicit range against the per-dimension units: two
bounds per dimension, every bound unit-tagged with a unit of the dimension of
the corresponding sample unit. -/
def boundsCompatible : List Unyt → List Quant → Bool
  | [], [] => true
  | u :: us, imin :: imax :: rest =>
      imin.units.isSome && imax.units.isSome
        && ((imin.units.getD NULL_UNIT).dims == u.dims)
        && ((imax.units.getD NULL_UNIT).dims == u.dims)
        && boundsCompatible us rest
  | _, _ => false

/-- Translation of the list comprehension `[_.units for _ in sample]` in
`histogramdd` (src line 130): every sample array must have a units attribute. -/
def sampleUnits : List UArr → Except UnytError (List Unyt)
  | [] => .ok []
  | a :: rest =>
      match a.units with
      | none => .error .attributeError
      | some u =>
          match sampleUnits rest with
          | .error e => .error e
          | .ok us => .ok (u :: us)

/-- Translation of `_array_comp_helper` (src lines 424-437): bring both
comparison operands to a common unit, rescaling compatible units, raising
UnitConversionError on incompatible ones, and promoting a bare operand. -/
def _array_comp_helper (a b : UArr) : Except UnytError (UArr × UArr) :=
  let au := getattrUnits a
  let bu := getattrUnits b
  if bu ≠ au ∧ au ≠ NULL_UNIT ∧ bu ≠ NULL_UNIT then
    if (bu.div au).isDimensionless then
      .ok (a, ⟨scaleData (Unyt.toFactor bu au) b.data, some au⟩)
    else
      .error (.unitConversion au au.dims bu bu.dims)
  else if bu = NULL_UNIT then
    .ok (a, ⟨b.data, some au⟩)
  else if au = NULL_UNIT then
    .ok (⟨a.data, some bu⟩, b)
  else
    .ok (a, b)

/-- Modelled from the spec: the numeric-kernel collaborator (spec section 6),
one raw-in raw-out implementation per registered operation, mirroring the
`np.*._implementation` references of the source.  Keyword options that the
source merely forwards (dtype, casting, ord, num, ...) are absorbed into the
kernel functions. -/
structure Numpy where
  dot_impl : RawData → RawData → RawData
  vdot_impl : RawData → RawData → RawData
  inner_impl : RawData → RawData → RawData
  outer_impl : RawData → RawData → RawData
  kron_impl : RawData → RawData → RawData
  cross_impl : RawData → RawData → RawData
  linalg_inv_impl : RawData → RawData
  linalg_tensorinv_impl : RawData → RawData
  linalg_pinv_impl : RawData → RawData
  fft_impl : RawData → RawData
  fft2_impl : RawData → RawData
  fftn_impl : RawData → RawData
  hfft_impl : RawData → RawData
  rfft_impl : RawData → RawData
  rfft2_impl : RawData → RawData
  rfftn_impl : RawData → RawData
  ifft_impl : RawData → RawData
  ifft2_impl : RawData → RawData
  ifftn_impl : RawData → RawData
  ihfft_impl : RawData → RawData
  irfft_impl : RawData → RawData
  irfft2_impl : RawData → RawData
  irfftn_impl : RawData → RawData
  fftshift_impl : RawData → RawData
  ifftshift_impl : RawData → RawData
  histogram_impl : RawData → Int → Option (List ℚ) → RawData × RawData
  histogram2d_impl : RawData → RawData → Int → Option (List ℚ) → RawData × RawData × RawData
  histogramdd_impl : List RawData → Int → Option (List ℚ) → RawData × List RawData
  concatenate_impl : List RawData → Int → RawData
  stack_impl : List RawData → Int → RawData
  vstack_impl : List RawData → RawData
  hstack_impl : List RawData → RawData
  dstack_impl : List RawData → RawData
  column_stack_impl : List RawData → RawData
  block_impl : ArrsList → RawData
  intersect1d_impl : RawData → RawData → Bool → Bool → RawData
  union1d_impl : RawData → RawData → RawData
  norm_impl : RawData → RawData
  isclose_impl : RawData → RawData → RawData
  allclose_impl : RawData → RawData → Bool
  linspace_impl : RawData → RawData → RawData
  logspace_impl : RawData → RawData → RawData
  geomspace_impl : RawData → RawData → RawData
  copyto_impl : RawData → RawData → RawData
  around_impl : RawData → Int → RawData
  sort_complex_impl : RawData → RawData
  var_impl : RawData → RawData
  trace_impl : RawData → RawData
  percentile_impl : RawData → RawData
  quantile_impl : RawData → RawData
  nanpercentile_impl : RawData → RawData
  nanquantile_impl : RawData → RawData
  solve_impl : RawData → RawData → RawData
  tensorsolve_impl : RawData → RawData → RawData
  eig_impl : RawData → RawData × RawData
  eigh_impl : RawData → RawData × RawData

/-- Translation of `product_helper` (src lines 29-38): derive the product
unit, run the kernel (into the output buffer when supplied), mutate the
buffer's unit field when it has one, and return a freshly tagged wrapper. -/
def product_helper (a b : UArr) (out : Option UArr)
    (func : RawData → RawData → RawData) : UArr × Option UArr :=
  let prod_units := (getattrUnits a).mul (getattrUnits b)
  match out with
  | none => (tag (func a.data b.data) prod_units, none)
  | some o =>
      let res := func a.data b.data
      (⟨res, some prod_units⟩,
       some ⟨res, if o.units.isSome then some prod_units else o.units⟩)

/-- Translation of `dot` (src lines 41-43). -/
def dot (np : Numpy) (a b : UArr) (out : Option UArr) : UArr × Option UArr :=
  product_helper a b out np.dot_impl

/-- Translation of `vdot` (src lines 46-50). -/
def vdot (np : Numpy) (a b : UArr) : UArr :=
  tag (np.vdot_impl a.data b.data) ((getattrUnits a).mul (getattrUnits b))

/-- Translation of `inner` (src lines 53-57). -/
def inner (np : Numpy) (a b : UArr) : UArr :=
  tag (np.inner_impl a.data b.data) ((getattrUnits a).mul (getattrUnits b))

/-- Translation of `outer` (src lines 60-62). -/
def outer (np : Numpy) (a b : UArr) (out : Option UArr) : UArr × Option UArr :=
  product_helper a b out np.outer_impl

/-- Translation of `kron` (src lines 65-69). -/
def kron (np : Numpy) (a b : UArr) : UArr :=
  tag (np.kron_impl a.data b.data) ((getattrUnits a).mul (getattrUnits b))

/-- Translation of `cross` (src lines 200-213); the axis keywords are absorbed
into the kernel. -/
def cross (np : Numpy) (a b : UArr) : UArr :=
  tag (np.cross_impl a.data b.data) ((getattrUnits a).mul (getattrUnits b))

/-- Translation of `linalg_inv` (src lines 72-74). -/
def linalg_inv (np : Numpy) (a : UArr) : Except UnytError UArr :=
  match unitsAttr a with
  | .error e => .error e
  | .ok u => .ok (tagdiv (np.linalg_inv_impl a.data) u)

/-- Translation of `linalg_tensorinv` (src lines 77-79). -/
def linalg_tensorinv (np : Numpy) (a : UArr) : Except UnytError UArr :=
  match unitsAttr a with
  | .error e => .error e
  | .ok u => .ok (tagdiv (np.linalg_tensorinv_impl a.data) u)

/-- Translation of `linalg_pinv` (src lines 82-84). -/
def linalg_pinv (np : Numpy) (a : UArr) : Except UnytError UArr :=
  match unitsAttr a with
  | .error e => .error e
  | .ok u => .ok (tagdiv (np.linalg_pinv_impl a.data) u)

/-- Translation of `ftt_fft` (src lines 319-321). -/
def ftt_fft (np : Numpy) (a : UArr) : Except UnytError UArr :=
  match unitsAttr a with
  | .error e => .error e
  | .ok u => .ok (tagdiv (np.fft_impl a.data) u)

/-- Translation of `ftt_fft2` (src lines 324-326). -/
def ftt_fft2 (np : Numpy) (a : UArr) : Except UnytError UArr :=
  match unitsAttr a with
  | .error e => .error e
  | .ok u => .ok (tagdiv (np.fft2_impl a.data) u)

/-- Translation of `ftt_fftn` (src lines 329-331). -/
def ftt_fftn (np : Numpy) (a : UArr) : Except UnytError UArr :=
  match unitsAttr a with
  | .error e => .error e
  | .ok u => .ok (tagdiv (np.fftn_impl a.data) u)

/-- Translation of `ftt_hfft` (src lines 334-336). -/
def ftt_hfft (np : Numpy) (a : UArr) : Except UnytError UArr :=
  match unitsAttr a with
  | .error e => .error e
  | .ok u => .ok (tagdiv (np.hfft_impl a.data) u)

/-- Translation of `ftt_rfft` (src lines 339-341). -/
def ftt_rfft (np : Numpy) (a : UArr) : Except UnytError UArr :=
  match unitsAttr a with
  | .error e => .error e
  | .ok u => .ok (tagdiv (np.rfft_impl a.data) u)

/-- Translation of `ftt_rfft2` (src lines 344-346). -/
def ftt_rfft2 (np : Numpy) (a : UArr) : Except UnytError UArr :=
  match unitsAttr a with
  | .error e => .error e
  | .ok u => .ok (tagdiv (np.rfft2_impl a.data) u)

/-- Translation of `ftt_rfftn` (src lines 349-351). -/
def ftt_rfftn (np : Numpy) (a : UArr) : Except UnytError UArr :=
  match unitsAttr a with
  | .error e => .error e
  | .ok u => .ok (tagdiv (np.rfftn_impl a.data) u)

/-- Translation of `ftt_ifft` (src lines 354-356). -/
def ftt_ifft (np : Numpy) (a : UArr) : Except UnytError UArr :=
  match unitsAttr a with
  | .error e => .error e
  | .ok u => .ok (tagdiv (np.ifft_impl a.data) u)

/-- Translation of `ftt_ifft2` (src lines 359-361). -/
def ftt_ifft2 (np : Numpy) (a : UArr) : Except UnytError UArr :=
  match unitsAttr a with
  | .error e => .error e
  | .ok u => .ok (tagdiv (np.ifft2_impl a.data) u)

/-- Translation of `ftt_ifftn` (src lines 364-366). -/
def ftt_ifftn (np : Numpy) (a : UArr) : Except UnytError UArr :=
  match unitsAttr a with
  | .error e => .error e
  | .ok u => .ok (tagdiv (np.ifftn_impl a.data) u)

/-- Translation of `ftt_ihfft` (src lines 369-371). -/
def ftt_ihfft (np : Numpy) (a : UArr) : Except UnytError UArr :=
  match unitsAttr a with
  | .error e => .error e
  | .ok u => .ok (tagdiv (np.ihfft_impl a.data) u)

/-- Translation of `ftt_irfft` (src lines 374-376). -/
def ftt_irfft (np : Numpy) (a : UArr) : Except UnytError UArr :=
  match unitsAttr a with
  | .error e => .error e
  | .ok u => .ok (tagdiv (np.irfft_impl a.data) u)

/-- Translation of `ftt_irfft2` (src lines 379-381). -/
def ftt_irfft2 (np : Numpy) (a : UArr) : Except UnytError UArr :=
  match unitsAttr a with
  | .error e => .error e
  | .ok u => .ok (tagdiv (np.irfft2_impl a.data) u)

/-- Translation of `ftt_irfftn` (src lines 384-386). -/
def ftt_irfftn (np : Numpy) (a : UArr) : Except UnytError UArr :=
  match unitsAttr a with
  | .error e => .error e
  | .ok u => .ok (tagdiv (np.irfftn_impl a.data) u)

/-- Translation of `fft_fftshift` (src lines 389-393). -/
def fft_fftshift (np : Numpy) (x : UArr) : Except UnytError UArr :=
  match unitsAttr x with
  | .error e => .error e
  | .ok u => .ok (tag (np.fftshift_impl x.data) u)

/-- Translation of `fft_ifftshift` (src lines 396-400). -/
def fft_ifftshift (np : Numpy) (x : UArr) : Except UnytError UArr :=
  match unitsAttr x with
  | .error e => .error e
  | .ok u => .ok (tag (np.ifftshift_impl x.data) u)

/-- Translation of `histogram` (src lines 104-116). -/
def histogram (np : Numpy) (a : UArr) (bins : Int) (r : Option (List Quant)) :
    Except UnytError (RawData × UArr) :=
  match unitsAttr a with
  | .error e => .error e
  | .ok u =>
      match _sanitize_range r [u] with
      | .error e => .error e
      | .ok r2 =>
          let p := np.histogram_impl a.data bins r2
          .ok (p.1, tag p.2 u)

/-- Translation of `histogram2d` (src lines 119-125). -/
def histogram2d (np : Numpy) (x y : UArr) (bins : Int) (r : Option (List Quant)) :
    Except UnytError (RawData × UArr × UArr) :=
  match unitsAttr x with
  | .error e => .error e
  | .ok xu =>
      match unitsAttr y with
      | .error e => .error e
      | .ok yu =>
          match _sanitize_range r [xu, yu] with
          | .error e => .error e
          | .ok r2 =>
              let p := np.histogram2d_impl x.data y.data bins r2
              .ok (p.1, tag p.2.1 xu, tag p.2.2 yu)

/-- Translation of `histogramdd` (src lines 128-135). -/
def histogramdd (np : Numpy) (sample : List UArr) (bins : Int)
    (r : Option (List Quant)) : Except UnytError (RawData × List UArr) :=
  match sampleUnits sample with
  | .error e => .error e
  | .ok units =>
      match _sanitize_range r units with
      | .error e => .error e
      | .ok r2 =>
          let p := np.histogramdd_impl (sample.map fun s => s.data) bins r2
          .ok (p.1, (p.2.zip units).map fun bu => tag bu.1 bu.2)

/-- Translation of `concatenate` (src lines 164-197); the numpy-version branch
only changes which keyword options are forwarded, which the kernel absorbs. -/
def concatenate (np : Numpy) (arrs : List UArr) (axis : Int) (out : Option UArr) :
    (Except UnytError UArr) × Option UArr :=
  match _validate_units_consistency (toArrsList arrs) with
  | .error e => (.error e, out)
  | .ok ret_units =>
      match out with
      | none =>
          (.ok ⟨np.concatenate_impl (arrs.map fun x => x.data) axis, some ret_units⟩,
           none)
      | some o =>
          let res := np.concatenate_impl (arrs.map fun x => x.data) axis
          (.ok ⟨res, some ret_units⟩,
           some ⟨res, if o.units.isSome then some ret_units else o.units⟩)

/-- Translation of `intersect1d` (src lines 216-228). -/
def intersect1d (np : Numpy) (arr1 arr2 : UArr)
    (assume_unique return_indices : Bool) :
    Except UnytError (Sum RawData UArr) :=
  match _validate_units_consistency (toArrsList [arr1, arr2]) with
  | .error e => .error e
  | .ok _ =>
      let retv := np.intersect1d_impl arr1.data arr2.data assume_unique return_indices
      if return_indices then .ok (.inl retv)
      else
        match unitsAttr arr1 with
        | .error e => .error e
        | .ok u => .ok (.inr (tag retv u))

/-- Translation of `union1d` (src lines 231-237). -/
def union1d (np : Numpy) (arr1 arr2 : UArr) : Except UnytError UArr :=
  match _validate_units_consistency (toArrsList [arr1, arr2]) with
  | .error e => .error e
  | .ok _ =>
      match unitsAttr arr1 with
      | .error e => .error e
      | .ok u => .ok (tag (np.union1d_impl arr1.data arr2.data) u)

/-- Translation of `norm` (src lines 240-247). -/
def norm (np : Numpy) (x : UArr) : Except UnytError UArr :=
  match unitsAttr x with
  | .error e => .error e
  | .ok u => .ok (tag (np.norm_impl x.data) u)

/-- Translation of `vstack` (src lines 250-253). -/
def vstack (np : Numpy) (tup : List UArr) : Except UnytError UArr :=
  match _validate_units_consistency (toArrsList tup) with
  | .error e => .error e
  | .ok ret_units => .ok (tag (np.vstack_impl (tup.map fun x => x.data)) ret_units)

/-- Translation of `hstack` (src lines 256-259).  Note: the source invokes
`np.vstack._implementation` on line 259, not `np.hstack._implementation`. -/
def hstack (np : Numpy) (tup : List UArr) : Except UnytError UArr :=
  match _validate_units_consistency (toArrsList tup) with
  | .error e => .error e
  | .ok ret_units => .ok (tag (np.vstack_impl (tup.map fun x => x.data)) ret_units)

/-- Translation of `dstack` (src lines 262-265). -/
def dstack (np : Numpy) (tup : List UArr) : Except UnytError UArr :=
  match _validate_units_consistency (toArrsList tup) with
  | .error e => .error e
  | .ok ret_units => .ok (tag (np.dstack_impl (tup.map fun x => x.data)) ret_units)

/-- Translation of `column_stack` (src lines 268-273). -/
def column_stack (np : Numpy) (tup : List UArr) : Except UnytError UArr :=
  match _validate_units_consistency (toArrsList tup) with
  | .error e => .error e
  | .ok ret_units =>
      .ok (tag (np.column_stack_impl (tup.map fun x => x.data)) ret_units)

/-- Translation of `stack` (src lines 276-289). -/
def stack (np : Numpy) (arrays : List UArr) (axis : Int) (out : Option UArr) :
    (Except UnytError UArr) × Option UArr :=
  match _validate_units_consistency (toArrsList arrays) with
  | .error e => (.error e, out)
  | .ok ret_units =>
      match out with
      | none =>
          (.ok (tag (np.stack_impl (arrays.map fun x => x.data) axis) ret_units),
           none)
      | some o =>
          let res := np.stack_impl (arrays.map fun x => x.data) axis
          (.ok ⟨res, some ret_units⟩,
           some ⟨res, if o.units.isSome then some ret_units else o.units⟩)

/-- Translation of `around` (src lines 292-304). -/
def around (np : Numpy) (a : UArr) (decimals : Int) (out : Option UArr) :
    Except UnytError (UArr × Option UArr) :=
  match unitsAttr a with
  | .error e => .error e
  | .ok ret_units =>
      match out with
      | none => .ok (tag (np.around_impl a.data decimals) ret_units, none)
      | some o =>
          let res := np.around_impl a.data decimals
          .ok (⟨res, some ret_units⟩,
               some ⟨res, if o.units.isSome then some ret_units else o.units⟩)

/-- Translation of `block` (src lines 313-316); note the source passes the
arrays themselves, not stripped views, to the kernel. -/
def block (np : Numpy) (arrays : ArrsList) : Except UnytError UArr :=
  match _validate_units_consistency arrays with
  | .error e => .error e
  | .ok ret_units => .ok (tag (np.block_impl arrays) ret_units)

/-- Translation of `sort_complex` (src lines 419-421). -/
def sort_complex (np : Numpy) (a : UArr) : Except UnytError UArr :=
  match unitsAttr a with
  | .error e => .error e
  | .ok u => .ok (tag (np.sort_complex_impl a.data) u)

/-- Translation of `isclose` (src lines 440-445). -/
def isclose (np : Numpy) (a b : UArr) : Except UnytError RawData :=
  match _array_comp_helper a b with
  | .error e => .error e
  | .ok p => .ok (np.isclose_impl p.1.data p.2.data)

/-- Translation of `allclose` (src lines 448-453). -/
def allclose (np : Numpy) (a b : UArr) : Except UnytError Bool :=
  match _array_comp_helper a b with
  | .error e => .error e
  | .ok p => .ok (np.allclose_impl p.1.data p.2.data)

/-- Translation of `linspace` (src lines 456-464). -/
def linspace (np : Numpy) (start stop : UArr) : Except UnytError UArr :=
  match _validate_units_consistency (toArrsList [start, stop]) with
  | .error e => .error e
  | .ok _ =>
      match unitsAttr start with
      | .error e => .error e
      | .ok u => .ok (tag (np.linspace_impl start.data stop.data) u)

/-- Translation of `logspace` (src lines 467-475). -/
def logspace (np : Numpy) (start stop : UArr) : Except UnytError UArr :=
  match _validate_units_consistency (toArrsList [start, stop]) with
  | .error e => .error e
  | .ok _ =>
      match unitsAttr start with
      | .error e => .error e
      | .ok u => .ok (tag (np.logspace_impl start.data stop.data) u)

/-- Translation of `geomspace` (src lines 478-486). -/
def geomspace (np : Numpy) (start stop : UArr) : Except UnytError UArr :=
  match _validate_units_consistency (toArrsList [start, stop]) with
  | .error e => .error e
  | .ok _ =>
      match unitsAttr start with
      | .error e => .error e
      | .ok u => .ok (tag (np.geomspace_impl start.data stop.data) u)

/-- Translation of `copyto` (src lines 489-496): the Python function returns
None (first component) and mutates the destination in place (second
component): the kernel overwrites its numeric contents, and its unit field,
when it has one, is set to `getattr(src, "units", dst.units)`. -/
def copyto (np : Numpy) (dst src : UArr) : Option UArr × UArr :=
  let d2 := np.copyto_impl dst.data src.data
  match dst.units with
  | some du => (none, ⟨d2, some (src.units.getD du)⟩)
  | none => (none, ⟨d2, none⟩)

/-- Translation of `var` (src lines 506-508). -/
def var (np : Numpy) (a : UArr) : Except UnytError UArr :=
  match unitsAttr a with
  | .error e => .error e
  | .ok u => .ok (tag (np.var_impl a.data) (u.pow 2))

/-- Translation of `trace` (src lines 511-513). -/
def trace (np : Numpy) (a : UArr) : Except UnytError UArr :=
  match unitsAttr a with
  | .error e => .error e
  | .ok u => .ok (tag (np.trace_impl a.data) u)

/-- Translation of `percentile` (src lines 516-518). -/
def percentile (np : Numpy) (a : UArr) : Except UnytError UArr :=
  match unitsAttr a with
  | .error e => .error e
  | .ok u => .ok (tag (np.percentile_impl a.data) u)

/-- Translation of `quantile` (src lines 521-523). -/
def quantile (np : Numpy) (a : UArr) : Except UnytError UArr :=
  match unitsAttr a with
  | .error e => .error e
  | .ok u => .ok (tag (np.quantile_impl a.data) u)

/-- Translation of `nanpercentile` (src lines 526-530). -/
def nanpercentile (np : Numpy) (a : UArr) : Except UnytError UArr :=
  match unitsAttr a with
  | .error e => .error e
  | .ok u => .ok (tag (np.nanpercentile_impl a.data) u)

/-- Translation of `nanquantile` (src lines 533-535). -/
def nanquantile (np : Numpy) (a : UArr) : Except UnytError UArr :=
  match unitsAttr a with
  | .error e => .error e
  | .ok u => .ok (tag (np.nanquantile_impl a.data) u)

/-- Translation of `linalg_solve` (src lines 555-565): kernel result times
unit(b) divided by unit(a), bare operands contributing NULL_UNIT. -/
def linalg_solve (np : Numpy) (a b : UArr) : UArr :=
  tag (np.solve_impl a.data b.data) ((getattrUnits b).div (getattrUnits a))

/-- Translation of `linalg_tensorsolve` (src lines 568-578). -/
def linalg_tensorsolve (np : Numpy) (a b : UArr) : UArr :=
  tag (np.tensorsolve_impl a.data b.data) ((getattrUnits b).div (getattrUnits a))

/-- Translation of `linalg_eig` (src lines 581-585): eigenvalues tagged with
unit(a), eigenvectors returned as the raw kernel output. -/
def linalg_eig (np : Numpy) (a : UArr) : Except UnytError (UArr × RawData) :=
  match unitsAttr a with
  | .error e => .error e
  | .ok ret_units =>
      let p := np.eig_impl a.data
      .ok (tag p.1 ret_units, p.2)

/-- Translation of `linalg_eigh` (src lines 588-592). -/
def linalg_eigh (np : Numpy) (a : UArr) : Except UnytError (UArr × RawData) :=
  match unitsAttr a with
  | .error e => .error e
  | .ok ret_units =>
      let p := np.eigh_impl a.data
      .ok (tag p.1 ret_units, p.2)

/-- Rows of a raw array, viewing a one-dimensional array as a single row. -/
def rowsOf : RawData → List (List ℚ)
  | .one xs => [xs]
  | .two xss => xss

/-- Flattened entries of a raw array. -/
def flatOf : RawData → List ℚ
  | .one xs => xs
  | .two xss => xss.flatten

/-- Concrete model of the vertical-stack kernel: stack the rows of the
operands into a two-dimensional array. -/
def vstackFn (arrs : List RawData) : RawData := .two ((arrs.map rowsOf).flatten)

/-- Concrete model of the horizontal-stack kernel on one-dimensional
operands: concatenate the entries into a one-dimensional array. -/
def hstackFn (arrs : List RawData) : RawData := .one ((arrs.map flatOf).flatten)

/-- Concrete model of the isclose kernel on one-dimensional operands:
pairwise indicator of closeness, with zero tolerance. -/
def iscloseFn (a b : RawData) : RawData :=
  match a, b with
  | .one xs, .one ys =>
      .one ((xs.zip ys).map fun p => if p.1 = p.2 then (1 : ℚ) else 0)
  | _, _ => .one []

/-- Concrete model of the allclose kernel on one-dimensional operands, with
zero tolerance. -/
def allcloseFn (a b : RawData) : Bool :=
  match a, b with
  | .one xs, .one ys =>
      xs.length == ys.length && ((xs.zip ys).all fun p => p.1 == p.2)
  | _, _ => false

/-- A concrete kernel record for instantiating the theorems: the stacking and
closeness kernels are meaningful, the histogram kernels echo the sanitized
range they receive (so conversions are observable), and the rest are simple
placeholders, which the unit-layer theorems never depend on. -/
def npModel : Numpy where
  dot_impl := fun a _ => a
  vdot_impl := fun a _ => a
  inner_impl := fun a _ => a
  outer_impl := fun a _ => a
  kron_impl := fun a _ => a
  cross_impl := fun a _ => a
  linalg_inv_impl := fun a => a
  linalg_tensorinv_impl := fun a => a
  linalg_pinv_impl := fun a => a
  fft_impl := fun a => a
  fft2_impl := fun a => a
  fftn_impl := fun a => a
  hfft_impl := fun a => a
  rfft_impl := fun a => a
  rfft2_impl := fun a => a
  rfftn_impl := fun a => a
  ifft_impl := fun a => a
  ifft2_impl := fun a => a
  ifftn_impl := fun a => a
  ihfft_impl := fun a => a
  irfft_impl := fun a => a
  irfft2_impl := fun a => a
  irfftn_impl := fun a => a
  fftshift_impl := fun a => a
  ifftshift_impl := fun a => a
  histogram_impl := fun _ _ r => (.one [], .one (r.getD []))
  histogram2d_impl := fun _ _ _ r => (.one [], .one (r.getD []), .one [])
  histogramdd_impl := fun ds _ r => (.one (r.getD []), ds)
  concatenate_impl := fun ds _ => hstackFn ds
  stack_impl := fun ds _ => vstackFn ds
  vstack_impl := vstackFn
  hstack_impl := hstackFn
  dstack_impl := vstackFn
  column_stack_impl := vstackFn
  block_impl := fun _ => .one []
  intersect1d_impl := fun a _ _ _ => a
  union1d_impl := fun a _ => a
  norm_impl := fun a => a
  isclose_impl := iscloseFn
  allclose_impl := allcloseFn
  linspace_impl := fun a _ => a
  logspace_impl := fun a _ => a
  geomspace_impl := fun a _ => a
  copyto_impl := fun _ s => s
  around_impl := fun a _ => a
  sort_complex_impl := fun a => a
  var_impl := fun a => a
  trace_impl := fun a => a
  percentile_impl := fun a => a
  quantile_impl := fun a => a
  nanpercentile_impl := fun a => a
  nanquantile_impl := fun a => a
  solve_impl := fun a _ => a
  tensorsolve_impl := fun a _ => a
  eig_impl := fun a => (a, a)
  eigh_impl := fun a => (a, a)

/-- A meter-tagged operand used in concrete instances. -/
def wMeterArr : UArr := ⟨RawData.one [1], some meter⟩

/-- A second-tagged operand used in concrete instances. -/
def wSecondArr : UArr := ⟨RawData.one [1], some second⟩

/-- When the collected units contain two distinct values, `_validate_units_consistency`
fails with a UnitInconsistencyError carrying the full list of collected units. -/
theorem validate_error (arrays : ArrsList) (u v : Unyt)
    (hu : u ∈ get_units_list arrays) (hv : v ∈ get_units_list arrays)
    (huv : u ≠ v) :
    _validate_units_consistency arrays
      = .error (.unitInconsistency (get_units_list arrays)) := by
  rcases hl : get_units_list arrays with _ | ⟨w, rest⟩
  · rw [hl] at hu
    exact absurd hu (List.not_mem_nil u)
  · rw [hl] at hu hv
    have hall : (rest.all fun x => x == w) = false := by
      rcases Bool.eq_false_or_eq_true (rest.all fun x => x == w) with h | h
      · exfalso
        have hw : ∀ x ∈ w :: rest, x = w := by
          intro x hx
          rcases List.mem_cons.mp hx with h1 | h1
          · exact h1
          · simpa using List.all_eq_true.mp h x h1
        exact huv ((hw u hu).trans (hw v hv).symm)
      · exact h
    simp [_validate_units_consistency, hl, hall]

/-- When the explicit range has the right number of bounds but some bound has no
units attribute, the sanitizing loop fails with a TypeError. -/
theorem sanitizeLoop_missing (us : List Unyt) (qs : List Quant)
    (hlen : qs.length = 2 * us.length)
    (hmiss : qs.any (fun q => q.units.isNone) = true) :
    sanitizeLoop us qs = .error .typeError := by
  induction us generalizing qs with
  | nil =>
      have : qs = [] := by
        simp only [List.length_nil, Nat.mul_zero] at hlen
        exact List.length_eq_zero.mp hlen
      subst this
      simp at hmiss
  | cons u tl ih =>
      rcases qs with _ | ⟨q1, _ | ⟨q2, rest⟩⟩
      · simp only [List.length_nil, List.length_cons] at hlen
        omega
      · simp only [List.length_cons, List.length_nil] at hlen
        omega
      · rcases hq1 : q1.units with _ | u1
        · simp [sanitizeLoop, hq1]
        · rcases hq2 : q2.units with _ | u2
          · simp [sanitizeLoop, hq1, hq2]
          · have hrest : sanitizeLoop tl rest = .error .typeError := by
              apply ih
              · simp only [List.length_cons] at hlen
                omega
              · simpa [hq1, hq2] using hmiss
            simp [sanitizeLoop, hq1, hq2, hrest]

/-- When the explicit range is well-formed against the sample units, the
sanitizing loop succeeds and returns exactly the bounds converted into the
per-dimension units. -/
theorem sanitizeLoop_ok (us : List Unyt) (qs : List Quant)
    (hc : boundsCompatible us qs = true) :
    sanitizeLoop us qs = .ok (convert_bounds us qs) := by
  induction us generalizing qs with
  | nil =>
      rcases qs with _ | ⟨q, rest⟩
      · simp [sanitizeLoop, convert_bounds]
      · simp [boundsCompatible] at hc
  | cons u tl ih =>
      rcases qs with _ | ⟨q1, _ | ⟨q2, rest⟩⟩
      · simp [boundsCompatible] at hc
      · simp [boundsCompatible] at hc
      · simp only [boundsCompatible, Bool.and_eq_true] at hc
        obtain ⟨⟨⟨⟨h1, h2⟩, _⟩, _⟩, h5⟩ := hc
        simp [sanitizeLoop, convert_bounds, h1, h2, ih rest h5]

/-- C1 (evaluation of the code at the failing input): on two one-dimensional
kilometer-tagged arrays, the registered hstack handler strips units and
returns the VERTICAL-stack kernel's two-dimensional result retagged with
kilometer, not the horizontal-stack kernel's flat concatenation, because
src/unyt/_array_functions.py line 259 invokes np.vstack._implementation. -/
theorem hstack_runs_vertical_stack_kernel :
    hstack npModel [⟨RawData.one [1, 2], some kilometer⟩, ⟨RawData.one [3, 4], some kilometer⟩]
        = .ok ⟨RawData.two [[1, 2], [3, 4]], some kilometer⟩
      ∧ npModel.vstack_impl [RawData.one [1, 2], RawData.one [3, 4]]
        = RawData.two [[1, 2], [3, 4]]
      ∧ npModel.hstack_impl [RawData.one [1, 2], RawData.one [3, 4]]
        = RawData.one [1, 2, 3, 4] :=
  ⟨rfl, rfl, rfl⟩

/-- C2: every homogeneous-units-family handler, when its recursively collected
operand units (bare operands contributing NULL_UNIT) contain two distinct
values, returns the UnitInconsistencyError carrying every collected unit; the
result does not depend on any kernel (the statement holds for every kernel
record np) and a caller-supplied output buffer is returned unchanged. -/
theorem homogeneous_family_inconsistency_before_kernel
    (np : Numpy) (arrs : List UArr) (tree : ArrsList) (a1 a2 : UArr)
    (axis : Int) (out : Option UArr) (f1 f2 : Bool)
    (uL vL uT vT uP vP : Unyt)
    (hLu : uL ∈ get_units_list (toArrsList arrs))
    (hLv : vL ∈ get_units_list (toArrsList arrs))
    (hLne : uL ≠ vL)
    (hTu : uT ∈ get_units_list tree)
    (hTv : vT ∈ get_units_list tree)
    (hTne : uT ≠ vT)
    (hPu : uP ∈ get_units_list (toArrsList [a1, a2]))
    (hPv : vP ∈ get_units_list (toArrsList [a1, a2]))
    (hPne : uP ≠ vP) :
    concatenate np arrs axis out
        = (.error (.unitInconsistency (get_units_list (toArrsList arrs))), out)
      ∧ stack np arrs axis out
        = (.error (.unitInconsistency (get_units_list (toArrsList arrs))), out)
      ∧ vstack np arrs
        = .error (.unitInconsistency (get_units_list (toArrsList arrs)))
      ∧ hstack np arrs
        = .error (.unitInconsistency (get_units_list (toArrsList arrs)))
      ∧ dstack np arrs
        = .error (.unitInconsistency (get_units_list (toArrsList arrs)))
      ∧ column_stack np arrs
        = .error (.unitInconsistency (get_units_list (toArrsList arrs)))
      ∧ block np tree
        = .error (.unitInconsistency (get_units_list tree))
      ∧ intersect1d np a1 a2 f1 f2
        = .error (.unitInconsistency (get_units_list (toArrsList [a1, a2])))
      ∧ union1d np a1 a2
        = .error (.unitInconsistency (get_units_list (toArrsList [a1, a2])))
      ∧ linspace np a1 a2
        = .error (.unitInconsistency (get_units_list (toArrsList [a1, a2])))
      ∧ logspace np a1 a2
        = .error (.unitInconsistency (get_units_list (toArrsList [a1, a2])))
      ∧ geomspace np a1 a2
        = .error (.unitInconsistency (get_units_list (toArrsList [a1, a2]))) := by
  have hL := validate_error (toArrsList arrs) uL vL hLu hLv hLne
  have hT := validate_error tree uT vT hTu hTv hTne
  have hP := validate_error (toArrsList [a1, a2]) uP vP hPu hPv hPne
  refine ⟨?_, ?_, ?_, ?_, ?_, ?_, ?_, ?_, ?_, ?_, ?_, ?_⟩ <;>
    simp [concatenate, stack, vstack, hstack, dstack, column_stack, block,
      intersect1d, union1d, linspace, logspace, geomspace, hL, hT, hP]

/-- C2 witness: concatenating a meter-tagged and a second-tagged array fails
with the inconsistency error carrying both units, leaving the absent output
buffer untouched. -/
theorem homogeneous_family_inconsistency_before_kernel_witness :
    concatenate npModel [wMeterArr, wSecondArr] 0 none
      = (.error (.unitInconsistency (get_units_list (toArrsList [wMeterArr, wSecondArr]))),
         none) :=
  (homogeneous_family_inconsistency_before_kernel npModel [wMeterArr, wSecondArr]
    (toArrsList [wMeterArr, wSecondArr]) wMeterArr wSecondArr 0 none false false
    meter second meter second meter second
    (by decide) (by decide) (by decide) (by decide) (by decide) (by decide)
    (by decide) (by decide) (by decide)).1

/-- C3: every binary product-family handler tags its result with
unit(a) * unit(b), a bare operand contributing NULL_UNIT via the getattr
default, and no handler of this family can fail (their types are total). -/
theorem product_family_unit_is_product_of_units (np : Numpy) (a b : UArr)
    (out : Option UArr) (d : RawData) :
    ((dot np a b out).1).units = some ((getattrUnits a).mul (getattrUnits b))
      ∧ ((outer np a b out).1).units = some ((getattrUnits a).mul (getattrUnits b))
      ∧ (vdot np a b).units = some ((getattrUnits a).mul (getattrUnits b))
      ∧ (inner np a b).units = some ((getattrUnits a).mul (getattrUnits b))
      ∧ (kron np a b).units = some ((getattrUnits a).mul (getattrUnits b))
      ∧ (cross np a b).units = some ((getattrUnits a).mul (getattrUnits b))
      ∧ getattrUnits ⟨d, none⟩ = NULL_UNIT := by
  cases out <;>
    simp [dot, outer, vdot, inner, kron, cross, product_helper, tag, getattrUnits]

/-- C4: every inverse-type handler (matrix inverses and all FFT transforms,
forward and inverse alike) applied to a Tagged Array returns the kernel output
tagged with the reciprocal unit 1 / unit(a). -/
theorem inverse_and_fft_unit_is_reciprocal (np : Numpy) (d : RawData) (u : Unyt) :
    linalg_inv np ⟨d, some u⟩ = .ok ⟨np.linalg_inv_impl d, some (NULL_UNIT.div u)⟩
      ∧ linalg_tensorinv np ⟨d, some u⟩
        = .ok ⟨np.linalg_tensorinv_impl d, some (NULL_UNIT.div u)⟩
      ∧ linalg_pinv np ⟨d, some u⟩ = .ok ⟨np.linalg_pinv_impl d, some (NULL_UNIT.div u)⟩
      ∧ ftt_fft np ⟨d, some u⟩ = .ok ⟨np.fft_impl d, some (NULL_UNIT.div u)⟩
      ∧ ftt_fft2 np ⟨d, some u⟩ = .ok ⟨np.fft2_impl d, some (NULL_UNIT.div u)⟩
      ∧ ftt_fftn np ⟨d, some u⟩ = .ok ⟨np.fftn_impl d, some (NULL_UNIT.div u)⟩
      ∧ ftt_hfft np ⟨d, some u⟩ = .ok ⟨np.hfft_impl d, some (NULL_UNIT.div u)⟩
      ∧ ftt_rfft np ⟨d, some u⟩ = .ok ⟨np.rfft_impl d, some (NULL_UNIT.div u)⟩
      ∧ ftt_rfft2 np ⟨d, some u⟩ = .ok ⟨np.rfft2_impl d, some (NULL_UNIT.div u)⟩
      ∧ ftt_rfftn np ⟨d, some u⟩ = .ok ⟨np.rfftn_impl d, some (NULL_UNIT.div u)⟩
      ∧ ftt_ifft np ⟨d, some u⟩ = .ok ⟨np.ifft_impl d, some (NULL_UNIT.div u)⟩
      ∧ ftt_ifft2 np ⟨d, some u⟩ = .ok ⟨np.ifft2_impl d, some (NULL_UNIT.div u)⟩
      ∧ ftt_ifftn np ⟨d, some u⟩ = .ok ⟨np.ifftn_impl d, some (NULL_UNIT.div u)⟩
      ∧ ftt_ihfft np ⟨d, some u⟩ = .ok ⟨np.ihfft_impl d, some (NULL_UNIT.div u)⟩
      ∧ ftt_irfft np ⟨d, some u⟩ = .ok ⟨np.irfft_impl d, some (NULL_UNIT.div u)⟩
      ∧ ftt_irfft2 np ⟨d, some u⟩ = .ok ⟨np.irfft2_impl d, some (NULL_UNIT.div u)⟩
      ∧ ftt_irfftn np ⟨d, some u⟩ = .ok ⟨np.irfftn_impl d, some (NULL_UNIT.div u)⟩ :=
  ⟨rfl, rfl, rfl, rfl, rfl, rfl, rfl, rfl, rfl, rfl, rfl, rfl, rfl, rfl, rfl, rfl, rfl⟩

/-- C5: the comparison handlers rescale a compatible differently-scaled operand
into the other operand's unit before calling the kernel, fail with a
UnitConversionError carrying both units and both dimension descriptors when the
units are incompatible (whatever the kernels do), and promote a bare operand to
the tagged operand's unit with no error. -/
theorem isclose_allclose_unit_reconciliation (np : Numpy) (a b : UArr)
    (au bu : Unyt) :
    (a.units = some au → b.units = some bu → bu ≠ au → au ≠ NULL_UNIT →
      bu ≠ NULL_UNIT →
      ((bu.div au).isDimensionless = true →
          isclose np a b
            = .ok (np.isclose_impl a.data (scaleData (Unyt.toFactor bu au) b.data))
          ∧ allclose np a b
            = .ok (np.allclose_impl a.data (scaleData (Unyt.toFactor bu au) b.data)))
      ∧ ((bu.div au).isDimensionless = false →
          isclose np a b = .error (.unitConversion au au.dims bu bu.dims)
          ∧ allclose np a b = .error (.unitConversion au au.dims bu bu.dims)))
    ∧ (a.units = some au → b.units = none →
        isclose np a b = .ok (np.isclose_impl a.data b.data)
        ∧ allclose np a b = .ok (np.allclose_impl a.data b.data))
    ∧ (a.units = none → b.units = some bu →
        isclose np a b = .ok (np.isclose_impl a.data b.data)
        ∧ allclose np a b = .ok (np.allclose_impl a.data b.data)) := by
  refine ⟨?_, ?_, ?_⟩
  · intro ha hb hne hau hbu
    constructor
    · intro hdim
      have hh : _array_comp_helper a b
          = .ok (a, ⟨scaleData (Unyt.toFactor bu au) b.data, some au⟩) := by
        simp [_array_comp_helper, getattrUnits, ha, hb, hne, hau, hbu, hdim]
      constructor <;> simp [isclose, allclose, hh]
    · intro hdim
      have hh : _array_comp_helper a b
          = .error (.unitConversion au au.dims bu bu.dims) := by
        simp [_array_comp_helper, getattrUnits, ha, hb, hne, hau, hbu, hdim]
      constructor <;> simp [isclose, allclose, hh]
  · intro ha hb
    have hh : _array_comp_helper a b = .ok (a, ⟨b.data, some au⟩) := by
      simp [_array_comp_helper, getattrUnits, ha, hb]
    constructor <;> simp [isclose, allclose, hh]
  · intro ha hb
    by_cases hbu : bu = NULL_UNIT
    · have hh : _array_comp_helper a b = .ok (a, ⟨b.data, some NULL_UNIT⟩) := by
        simp [_array_comp_helper, getattrUnits, ha, hb, hbu]
      constructor <;> simp [isclose, allclose, hh]
    · have hh : _array_comp_helper a b = .ok (⟨a.data, some bu⟩, b) := by
        simp [_array_comp_helper, getattrUnits, ha, hb, hbu]
      constructor <;> simp [isclose, allclose, hh]

/-- C5 witness: 1000 in meters and 1 in kilometers compare as close, the
kilometer operand having been rescaled to 1000 meters before the kernel ran. -/
theorem isclose_allclose_unit_reconciliation_witness :
    isclose npModel ⟨RawData.one [1000], some meter⟩ ⟨RawData.one [1], some kilometer⟩
      = .ok (RawData.one [1]) := by
  have h := ((isclose_allclose_unit_reconciliation npModel
      ⟨RawData.one [1000], some meter⟩ ⟨RawData.one [1], some kilometer⟩
      meter kilometer).1 rfl rfl (by decide) (by decide) (by decide)).1 (by decide)
  rw [h.1]
  norm_num [npModel, iscloseFn, scaleData, Unyt.toFactor, kilometer, meter]

/-- C6: the histogram-family handlers raise a TypeError when any explicit
range bound lacks a units attribute, independently of any kernel; otherwise
they convert each bound into the corresponding sample unit, pass the raw
converted numbers to the kernel, return unitless counts, and tag each
bin-edge array with its dimension's sample unit. -/
theorem histogram_family_range_sanitization
    (np : Numpy) (a x y : UArr) (sample : List UArr)
    (u xu yu : Unyt) (us : List Unyt) (bins : Int) (qs : List Quant) :
    (a.units = some u → qs.length = 2 →
        qs.any (fun q => q.units.isNone) = true →
        histogram np a bins (some qs) = .error .typeError)
    ∧ (a.units = some u → boundsCompatible [u] qs = true →
        histogram np a bins (some qs)
          = .ok ((np.histogram_impl a.data bins (some (convert_bounds [u] qs))).1,
                 ⟨(np.histogram_impl a.data bins (some (convert_bounds [u] qs))).2,
                  some u⟩))
    ∧ (x.units = some xu → y.units = some yu → qs.length = 4 →
        qs.any (fun q => q.units.isNone) = true →
        histogram2d np x y bins (some qs) = .error .typeError)
    ∧ (x.units = some xu → y.units = some yu →
        boundsCompatible [xu, yu] qs = true →
        histogram2d np x y bins (some qs)
          = .ok ((np.histogram2d_impl x.data y.data bins
                    (some (convert_bounds [xu, yu] qs))).1,
                 ⟨(np.histogram2d_impl x.data y.data bins
                    (some (convert_bounds [xu, yu] qs))).2.1, some xu⟩,
                 ⟨(np.histogram2d_impl x.data y.data bins
                    (some (convert_bounds [xu, yu] qs))).2.2, some yu⟩))
    ∧ (sampleUnits sample = .ok us → qs.length = 2 * us.length →
        qs.any (fun q => q.units.isNone) = true →
        histogramdd np sample bins (some qs) = .error .typeError)
    ∧ (sampleUnits sample = .ok us → boundsCompatible us qs = true →
        histogramdd np sample bins (some qs)
          = .ok ((np.histogramdd_impl (sample.map fun s => s.data) bins
                    (some (convert_bounds us qs))).1,
                 (((np.histogramdd_impl (sample.map fun s => s.data) bins
                    (some (convert_bounds us qs))).2).zip us).map
                   fun bu => tag bu.1 bu.2)) := by
  refine ⟨?_, ?_, ?_, ?_, ?_, ?_⟩
  · intro ha hlen hmiss
    have hs := sanitizeLoop_missing [u] qs (by simpa using hlen) hmiss
    simp [histogram, unitsAttr, ha, _sanitize_range, hs]
  · intro ha hc
    have hs := sanitizeLoop_ok [u] qs hc
    simp [histogram, unitsAttr, ha, _sanitize_range, hs, tag]
  · intro hx hy hlen hmiss
    have hs := sanitizeLoop_missing [xu, yu] qs (by simpa using hlen) hmiss
    simp [histogram2d, unitsAttr, hx, hy, _sanitize_range, hs]
  · intro hx hy hc
    have hs := sanitizeLoop_ok [xu, yu] qs hc
    simp [histogram2d, unitsAttr, hx, hy, _sanitize_range, hs, tag]
  · intro hsu hlen hmiss
    have hs := sanitizeLoop_missing us qs hlen hmiss
    simp [histogramdd, hsu, _sanitize_range, hs]
  · intro hsu hc
    have hs := sanitizeLoop_ok us qs hc
    simp [histogramdd, hsu, _sanitize_range, hs, tag]

/-- C6 witness: a histogram of a meter-tagged sample with kilometer-tagged
range bounds (1 km, 2 km) passes the raw converted bounds 1000 and 2000 to
the kernel (which here echoes them as the bin edges) and tags the returned
edges with meter. -/
theorem histogram_family_range_sanitization_witness :
    histogram npModel ⟨RawData.one [5], some meter⟩ 10
        (some [⟨1, some kilometer⟩, ⟨2, some kilometer⟩])
      = .ok (RawData.one [], ⟨RawData.one [1000, 2000], some meter⟩) := by
  have h := (histogram_family_range_sanitization npModel
      ⟨RawData.one [5], some meter⟩ wMeterArr wMeterArr [] meter meter meter []
      10 [⟨1, some kilometer⟩, ⟨2, some kilometer⟩]).2.1 rfl (by decide)
  rw [h]
  norm_num [npModel, convert_bounds, Quant.to_value, Unyt.toFactor, kilometer, meter]

/-- C7: a product-family call with a unit-tagged output buffer overwrites the
buffer's numeric contents with the kernel result and its unit field with the
derived product unit, and returns a wrapper with the same data and the same
derived unit. -/
theorem product_out_buffer_unit_mutation (np : Numpy) (a b : UArr)
    (bd : RawData) (bu : Unyt) :
    dot np a b (some ⟨bd, some bu⟩)
        = (⟨np.dot_impl a.data b.data, some ((getattrUnits a).mul (getattrUnits b))⟩,
           some ⟨np.dot_impl a.data b.data,
                 some ((getattrUnits a).mul (getattrUnits b))⟩)
      ∧ outer np a b (some ⟨bd, some bu⟩)
        = (⟨np.outer_impl a.data b.data, some ((getattrUnits a).mul (getattrUnits b))⟩,
           some ⟨np.outer_impl a.data b.data,
                 some ((getattrUnits a).mul (getattrUnits b))⟩) := by
  constructor <;> simp [dot, outer, product_helper]

/-- C8: solve and tensorsolve tag their result with unit(b) / unit(a) (bare
operands contributing NULL_UNIT), and eig/eigh tag the eigenvalues with
unit(a) while returning the eigenvector array as raw, unit-free kernel
output. -/
theorem linear_system_family_units (np : Numpy) (a b : UArr) (d : RawData)
    (u : Unyt) :
    linalg_solve np a b
        = ⟨np.solve_impl a.data b.data, some ((getattrUnits b).div (getattrUnits a))⟩
      ∧ linalg_tensorsolve np a b
        = ⟨np.tensorsolve_impl a.data b.data,
           some ((getattrUnits b).div (getattrUnits a))⟩
      ∧ linalg_eig np ⟨d, some u⟩ = .ok (⟨(np.eig_impl d).1, some u⟩, (np.eig_impl d).2)
      ∧ linalg_eigh np ⟨d, some u⟩
        = .ok (⟨(np.eigh_impl d).1, some u⟩, (np.eigh_impl d).2) :=
  ⟨rfl, rfl, rfl, rfl⟩

/-- C9: every pass-through handler tags its result with the unit of its Tagged
Array input — identically for around (with or without an output buffer),
sort_complex, the fft shifts, norm, trace, the percentile/quantile quartet —
and var tags with the square of the input unit. -/
theorem passthrough_family_units (np : Numpy) (d od : RawData) (u v : Unyt)
    (decimals : Int) :
    around np ⟨d, some u⟩ decimals none
        = .ok (⟨np.around_impl d decimals, some u⟩, none)
      ∧ around np ⟨d, some u⟩ decimals (some ⟨od, some v⟩)
        = .ok (⟨np.around_impl d decimals, some u⟩,
               some ⟨np.around_impl d decimals, some u⟩)
      ∧ sort_complex np ⟨d, some u⟩ = .ok ⟨np.sort_complex_impl d, some u⟩
      ∧ fft_fftshift np ⟨d, some u⟩ = .ok ⟨np.fftshift_impl d, some u⟩
      ∧ fft_ifftshift np ⟨d, some u⟩ = .ok ⟨np.ifftshift_impl d, some u⟩
      ∧ norm np ⟨d, some u⟩ = .ok ⟨np.norm_impl d, some u⟩
      ∧ trace np ⟨d, some u⟩ = .ok ⟨np.trace_impl d, some u⟩
      ∧ percentile np ⟨d, some u⟩ = .ok ⟨np.percentile_impl d, some u⟩
      ∧ quantile np ⟨d, some u⟩ = .ok ⟨np.quantile_impl d, some u⟩
      ∧ nanpercentile np ⟨d, some u⟩ = .ok ⟨np.nanpercentile_impl d, some u⟩
      ∧ nanquantile np ⟨d, some u⟩ = .ok ⟨np.nanquantile_impl d, some u⟩
      ∧ var np ⟨d, some u⟩ = .ok ⟨np.var_impl d, some (u.pow 2)⟩ :=
  ⟨rfl, rfl, rfl, rfl, rfl, rfl, rfl, rfl, rfl, rfl, rfl, rfl⟩

/-- C10: copyto returns nothing (the Python None) and, after the kernel
overwrites the destination's numeric contents, sets a unit-tagged
destination's unit to the source's unit when the source is tagged, leaves it
unchanged when the source is bare, and never gives a bare destination a
unit. -/
theorem copyto_unit_propagation (np : Numpy) (d s : RawData) (du su : Unyt)
    (su2 : Option Unyt) :
    copyto np ⟨d, some du⟩ ⟨s, some su⟩ = (none, ⟨np.copyto_impl d s, some su⟩)
      ∧ copyto np ⟨d, some du⟩ ⟨s, none⟩ = (none, ⟨np.copyto_impl d s, some du⟩)
      ∧ copyto np ⟨d, none⟩ ⟨s, su2⟩ = (none, ⟨np.copyto_impl d s, none⟩) :=
  ⟨rfl, rfl, rfl⟩

end UnytSpec
